import Mathlib

/-!
# emall-utils, package `tracer` (tracer/jaeger.go)

A shallow embedding of the tracing helpers of `tracer/jaeger.go`.

The package keeps two process-wide variables, `Tracer` and `Closer`, and talks
to the opentracing / jaeger-client libraries through interface values.  Those
libraries are not part of this repository, so they appear here as a parameter
(`Backend`): every library method is a state-passing function over the state
`σ` owned by the library.  The package itself is embedded as functions on a
`World`: the two globals, the library state, the sequence of library calls
made so far and the lines written to standard output.
-/

namespace tracer

/-! ## Go values -/

/-- Go `error` value (non-nil), identified by the text its `Error()` method returns.
The nilable `error` interface is `Option GoError`. -/
structure GoError where
  text : String
deriving DecidableEq, Repr

/-- Go `errors.New(text)`. -/
def errors.New (text : String) : GoError := ⟨text⟩

/-- Go `opentracing.TextMapCarrier`, a `map[string]string`, as an association list. -/
abbrev TextMapCarrier := List (String × String)

/-- Go map indexing `carrier[key]`: the stored value, or the zero value `""` when the key is absent. -/
def TextMapCarrier.get (carrier : TextMapCarrier) (key : String) : String :=
  (carrier.lookup key).getD ""

/-- Go `opentracing.StartSpanOption`; the package only ever builds `opentracing.ChildOf(ctx)`. -/
inductive StartSpanOption (Ctx : Type) where
  | ChildOf (ctx : Ctx)
deriving DecidableEq, Repr

/-- Go `jaegerConfig.SamplerConfig` (the fields the package sets; `Param` is the literal `1`). -/
structure SamplerConfig where
  Type_ : String
  Param : Nat
deriving DecidableEq, Repr

/-- Go `jaegerConfig.ReporterConfig` (the fields the package sets). -/
structure ReporterConfig where
  LogSpans : Bool
  LocalAgentHostPort : String
deriving DecidableEq, Repr

/-- Go `jaegerConfig.Configuration` (the fields the package sets). -/
structure Configuration where
  Sampler : SamplerConfig
  Reporter : ReporterConfig
  ServiceName : String
deriving DecidableEq, Repr

/-- Text written by Go `fmt.Println(args...)`: the operands separated by spaces, then a newline. -/
def Println (args : List String) : String :=
  " ".intercalate args ++ "\n"

/-! ## The tracing libraries, as a parameter -/

/-- The opentracing / jaeger-client methods the package calls.
`σ` is the state owned by the libraries, `T` a (non-nil) `opentracing.Tracer`, `C` a (non-nil)
`io.Closer`, `Ctx` an `opentracing.SpanContext`, `S` a (non-nil) `opentracing.Span` and `V` the
dynamic values passed as `interface{}`.
`NewTracer` is `cfg.NewTracer()`; `Inject` returns the new content of the carrier map it was
handed together with its `error` result. -/
structure Backend (σ T C Ctx S V : Type) where
  NewTracer : Configuration → σ → Except GoError (T × C) × σ
  Extract : T → TextMapCarrier → σ → Except GoError Ctx × σ
  StartSpan : T → String → List (StartSpanOption Ctx) → σ → S × σ
  Inject : T → Ctx → TextMapCarrier → σ → (TextMapCarrier × Option GoError) × σ
  Context : S → Ctx
  Finish : S → σ → σ
  SetTag : S → String → V → σ → σ

/-- One call made on the tracing libraries. -/
inductive Call (T Ctx S V : Type) where
  | NewTracer (cfg : Configuration)
  | Extract (t : T) (carrier : TextMapCarrier)
  | StartSpan (t : T) (operationName : String) (opts : List (StartSpanOption Ctx))
  | Inject (t : T) (ctx : Ctx) (carrier : TextMapCarrier)
  | Finish (span : S)
  | SetTag (span : S) (tagname : String) (tagvalue : V)
deriving DecidableEq, Repr

/-- Process state: the package globals `Tracer` and `Closer` (`none` is Go `nil`), the state of
the tracing libraries, the library calls made so far (oldest first) and the lines printed. -/
structure World (σ T C Ctx S V : Type) where
  Tracer : Option T
  Closer : Option C
  backend : σ
  calls : List (Call T Ctx S V)
  stdout : List String
deriving DecidableEq, Repr

variable {σ T C Ctx S V : Type}

/-- Record a library call and the library state it leaves. -/
def World.call (w : World σ T C Ctx S V) (c : Call T Ctx S V) (h : σ) : World σ T C Ctx S V :=
  { w with backend := h, calls := w.calls ++ [c] }

/-- Write one `fmt.Println` line. -/
def World.print (w : World σ T C Ctx S V) (args : List String) : World σ T C Ctx S V :=
  { w with stdout := w.stdout ++ [Println args] }

/-! ## The package -/

/-- The `jaegerConfig.Configuration` literal `cfg` built by `InitTracer` (jaeger.go 24-37). -/
def cfg (serviceName agentHostPort : String) : Configuration :=
  { Sampler := { Type_ := "const", Param := 1 },
    Reporter := { LogSpans := false, LocalAgentHostPort := agentHostPort },
    ServiceName := serviceName }

/-- Go `InitTracer(serviceName, agentHostPort) error` (jaeger.go 17-53). -/
def InitTracer (B : Backend σ T C Ctx S V) (serviceName agentHostPort : String)
    (w : World σ T C Ctx S V) : Option GoError × World σ T C Ctx S V :=
  if w.Tracer.isSome && w.Closer.isSome then
    (none, w)
  else
    match B.NewTracer (cfg serviceName agentHostPort) w.backend with
    | (.error err, h) =>
      (some err, (w.call (.NewTracer (cfg serviceName agentHostPort)) h).print
        ["Init GlobalJaegerTracer failed, err : ", err.text])
    | (.ok (_tracer, _closer), h) =>
      let w1 := w.call (.NewTracer (cfg serviceName agentHostPort)) h
      (none, { w1 with Tracer := some _tracer, Closer := some _closer })

/-- Carrier key under which `getParentSpan` stores the inbound identifier (jaeger.go 64). -/
def inboundKey : String := "UBER-TRACE-ID"

/-- Carrier key from which `StartSpan` reads the outbound identifier (jaeger.go 104). -/
def outboundKey : String := "uber-trace-id"

/-- Go `getParentSpan(operationName, traceId, startIfNoParent) (span, err)` (jaeger.go 55-78). -/
def getParentSpan (B : Backend σ T C Ctx S V) (operationName traceId : String)
    (startIfNoParent : Bool) (w : World σ T C Ctx S V) :
    (Option S × Option GoError) × World σ T C Ctx S V :=
  match w.Tracer with
  | none =>
    let err := errors.New "jaeger tracing error : Tracer is nil"
    ((none, some err), w.print [err.text])
  | some t =>
    let carrier : TextMapCarrier := [(inboundKey, traceId)]
    match B.Extract t carrier w.backend with
    | (.error _, h) =>
      let w1 := w.call (.Extract t carrier) h
      if startIfNoParent then
        let r := B.StartSpan t operationName [] w1.backend
        ((some r.1, none), w1.call (.StartSpan t operationName []) r.2)
      else
        ((none, none), w1)
    | (.ok parentSpanCtx, h) =>
      let w1 := w.call (.Extract t carrier) h
      let r := B.StartSpan t operationName [.ChildOf parentSpanCtx] w1.backend
      ((some r.1, none), w1.call (.StartSpan t operationName [.ChildOf parentSpanCtx]) r.2)

/-- The three results of Go `StartSpan`. -/
structure StartSpanResult (S : Type) where
  span : Option S
  spanTraceId : String
  err : Option GoError
deriving DecidableEq, Repr

/-- Go `StartSpan(operationName, parentSpanTraceId, startIfNoParent) (span, spanTraceId, err)`
(jaeger.go 80-109).  `Except.error` is a run-time panic: the method call `Tracer.Inject` on a
nil `Tracer`. -/
def StartSpan (B : Backend σ T C Ctx S V) (operationName parentSpanTraceId : String)
    (startIfNoParent : Bool) (w : World σ T C Ctx S V) :
    Except String (StartSpanResult S × World σ T C Ctx S V) :=
  match getParentSpan B operationName parentSpanTraceId startIfNoParent w with
  | ((some plainParentSpan, none), w1) =>
    let carrier : TextMapCarrier := []
    match w1.Tracer with
    | none => .error "invalid memory address or nil pointer dereference"
    | some t =>
      match B.Inject t (B.Context plainParentSpan) carrier w1.backend with
      | ((_, some err), h) =>
        let w2 := w1.call (.Inject t (B.Context plainParentSpan) carrier) h
        .ok (⟨none, "", some err⟩, w2.print ["jaeger tracing inject error : ", err.text])
      | ((filled, none), h) =>
        let w2 := w1.call (.Inject t (B.Context plainParentSpan) carrier) h
        .ok (⟨some plainParentSpan, filled.get outboundKey, none⟩, w2)
  | ((_, err), w1) =>
    .ok (⟨none, "", err⟩, w1.print ["No span return"])

/-- Go `FinishSpan(span)` (jaeger.go 111-115). -/
def FinishSpan (B : Backend σ T C Ctx S V) (span : Option S) (w : World σ T C Ctx S V) :
    World σ T C Ctx S V :=
  match span with
  | some s => w.call (.Finish s) (B.Finish s w.backend)
  | none => w

/-- Go `SpanSetTag(span, tagname, tagvalue)` (jaeger.go 117-121). -/
def SpanSetTag (B : Backend σ T C Ctx S V) (span : Option S) (tagname : String) (tagvalue : V)
    (w : World σ T C Ctx S V) : World σ T C Ctx S V :=
  match span with
  | some s => w.call (.SetTag s tagname tagvalue) (B.SetTag s tagname tagvalue w.backend)
  | none => w

/-- The result and final state of a `StartSpan` call that did not panic. -/
def StartSpan.returned (r : Except String (StartSpanResult S × World σ T C Ctx S V))
    (dflt : World σ T C Ctx S V) : StartSpanResult S × World σ T C Ctx S V :=
  match r with
  | .ok x => x
  | .error _ => (⟨none, "", none⟩, dflt)

/-! ## A small concrete tracing library, used to run the package on concrete inputs -/

/-- Wire form of span context `n`: `n + 1` copies of the character `1`. -/
def demoEncode (n : Nat) : String := ⟨List.replicate (n + 1) '1'⟩

/-- Inverse of `demoEncode`; the empty string is no span context. -/
def demoDecode (v : String) : Except GoError Nat :=
  if v.data.length = 0 then .error ⟨"empty trace id"⟩ else .ok (v.data.length - 1)

/-- Lower-case copy of a key. -/
def lowerKey (key : String) : String := ⟨key.data.map Char.toLower⟩

/-- Text-map extraction: the entry stored under `uber-trace-id` is decoded.  With
`caseSensitive = false` keys are lower-cased first, as the jaeger client does. -/
def demoExtract (caseSensitive : Bool) (carrier : TextMapCarrier) : Except GoError Nat :=
  match carrier.find? (fun kv => (if caseSensitive then kv.1 else lowerKey kv.1) == "uber-trace-id") with
  | some kv => demoDecode kv.2
  | none => .error ⟨"opentracing: SpanContext not found in Extract carrier"⟩

/-- A tracing library with span contexts numbered `0, 1, 2, ...` (the library state is the next
free number, a span is its own context).  `NewTracer` fails on an empty agent address;
`Inject` stores the wire form under `injectKey`, or fails when `injectOk = false`. -/
def demo (caseSensitive injectOk : Bool) (injectKey : String) :
    Backend Nat Unit Unit Nat Nat String where
  NewTracer := fun c h =>
    if c.Reporter.LocalAgentHostPort = "" then (.error ⟨"no agent address"⟩, h) else (.ok ((), ()), h)
  Extract := fun _ carrier h => (demoExtract caseSensitive carrier, h)
  StartSpan := fun _ _ _ h => (h, h + 1)
  Inject := fun _ ctx carrier h =>
    if injectOk then (((injectKey, demoEncode ctx) :: carrier, none), h)
    else ((carrier, some ⟨"invalid span context"⟩), h)
  Context := fun s => s
  Finish := fun _ h => h
  SetTag := fun _ _ _ h => h

/-- The codec round trip on carriers: whatever `Inject` writes into an empty carrier for a
context, `Extract` reads back as that context. -/
def ExtractInvertsInject (B : Backend σ T C Ctx S V) (t : T) : Prop :=
  ∀ (ctx : Ctx) (h : σ) (filled : TextMapCarrier) (h2 : σ),
    B.Inject t ctx [] h = ((filled, none), h2) →
    ∀ h3 : σ, (B.Extract t filled h3).1 = .ok ctx

/-- The codec round trip as `StartSpan` performs it: the value `Inject` leaves under
`uber-trace-id`, placed alone under `UBER-TRACE-ID`, is read back by `Extract` as the context. -/
def ExtractInvertsInjectAcrossKeys (B : Backend σ T C Ctx S V) (t : T) : Prop :=
  ∀ (ctx : Ctx) (h : σ) (filled : TextMapCarrier) (h2 : σ),
    B.Inject t ctx [] h = ((filled, none), h2) →
    ∀ h3 : σ, (B.Extract t [("UBER-TRACE-ID", filled.get "uber-trace-id")] h3).1 = .ok ctx

/-- The jaeger-like instance: case-insensitive keys, injection under `uber-trace-id`. -/
def jaegerLike : Backend Nat Unit Unit Nat Nat String := demo false true "uber-trace-id"

/-- The same library with case-sensitive key lookup in `Extract`. -/
def caseSensitive : Backend Nat Unit Unit Nat Nat String := demo true true "uber-trace-id"

/-- The jaeger-like library with an `Inject` that always fails. -/
def injectFails : Backend Nat Unit Unit Nat Nat String := demo false false "uber-trace-id"

/-- The jaeger-like library configured to inject under the key `traceparent`. -/
def otherKey : Backend Nat Unit Unit Nat Nat String := demo false true "traceparent"

/-- The jaeger-like library with an `Extract` that accepts every carrier as context `7`. -/
def lenient : Backend Nat Unit Unit Nat Nat String :=
  { jaegerLike with Extract := fun _ _ h => (.ok 7, h) }

/-- The jaeger-like library with an `Inject` that accepts context `0` only. -/
def injectOnce : Backend Nat Unit Unit Nat Nat String :=
  { jaegerLike with
    Inject := fun _ ctx carrier h =>
      if ctx = 0 then ((("uber-trace-id", demoEncode ctx) :: carrier, none), h)
      else ((carrier, some ⟨"invalid span context"⟩), h) }

/-- The jaeger-like library with an `Inject` that fills the carrier with one value under
`UBER-TRACE-ID` and another under `uber-trace-id`, so that the key a caller reads shows. -/
def twoKeys : Backend Nat Unit Unit Nat Nat String :=
  { jaegerLike with
    Inject := fun _ _ _ h => (([("UBER-TRACE-ID", "upper"), ("uber-trace-id", "lower")], none), h) }

/-- The initial process state: both globals nil, nothing called, nothing printed. -/
def w0 : World Nat Unit Unit Nat Nat String := ⟨none, none, 0, [], []⟩

/-- A process state with the globals set (as after a successful `InitTracer`). -/
def wInit : World Nat Unit Unit Nat Nat String := ⟨some (), some (), 0, [], []⟩

/-- The key `key` is the one under which `getParentSpan` stores the inbound identifier: on every
tracing library and in every state with a non-nil `Tracer`, the first library call it makes is
`Extract` on the carrier holding the identifier under `key` and nothing else. -/
def StoresInboundUnder (key : String) : Prop :=
  ∀ (σ T C Ctx S V : Type) (B : Backend σ T C Ctx S V) (operationName traceId : String)
    (startIfNoParent : Bool) (w : World σ T C Ctx S V) (t : T), w.Tracer = some t →
    ∃ rest, (getParentSpan B operationName traceId startIfNoParent w).2.calls =
      w.calls ++ Call.Extract t [(key, traceId)] :: rest

/-- The key `key` is the one from which `StartSpan` reads the outbound identifier: on every
tracing library, whenever a span was created and its injection reports no error, the identifier
returned is the entry of the filled carrier under `key`. -/
def ReadsOutboundFrom (key : String) : Prop :=
  ∀ (σ T C Ctx S V : Type) (B : Backend σ T C Ctx S V) (operationName parentSpanTraceId : String)
    (startIfNoParent : Bool) (w w1 : World σ T C Ctx S V) (t : T) (s : S)
    (filled : TextMapCarrier) (h : σ), w.Tracer = some t →
    getParentSpan B operationName parentSpanTraceId startIfNoParent w = ((some s, none), w1) →
    B.Inject t (B.Context s) [] w1.backend = ((filled, none), h) →
    ∃ w2, StartSpan B operationName parentSpanTraceId startIfNoParent w =
      .ok (⟨some s, filled.get key, none⟩, w2)

/-! ## Basic facts about the embedding -/

section Facts

variable (B : Backend σ T C Ctx S V)

@[simp]
theorem World.call_Tracer (w : World σ T C Ctx S V) (c : Call T Ctx S V) (h : σ) :
    (w.call c h).Tracer = w.Tracer := rfl

@[simp]
theorem World.call_Closer (w : World σ T C Ctx S V) (c : Call T Ctx S V) (h : σ) :
    (w.call c h).Closer = w.Closer := rfl

@[simp]
theorem World.call_backend (w : World σ T C Ctx S V) (c : Call T Ctx S V) (h : σ) :
    (w.call c h).backend = h := rfl

@[simp]
theorem World.call_calls (w : World σ T C Ctx S V) (c : Call T Ctx S V) (h : σ) :
    (w.call c h).calls = w.calls ++ [c] := rfl

@[simp]
theorem World.call_stdout (w : World σ T C Ctx S V) (c : Call T Ctx S V) (h : σ) :
    (w.call c h).stdout = w.stdout := rfl

@[simp]
theorem World.print_Tracer (w : World σ T C Ctx S V) (args : List String) :
    (w.print args).Tracer = w.Tracer := rfl

@[simp]
theorem World.print_Closer (w : World σ T C Ctx S V) (args : List String) :
    (w.print args).Closer = w.Closer := rfl

@[simp]
theorem World.print_backend (w : World σ T C Ctx S V) (args : List String) :
    (w.print args).backend = w.backend := rfl

@[simp]
theorem World.print_calls (w : World σ T C Ctx S V) (args : List String) :
    (w.print args).calls = w.calls := rfl

/-- With a nil `Tracer`, `getParentSpan` only prints and returns its freshly made error. -/
theorem getParentSpan_nil (operationName traceId : String) (startIfNoParent : Bool)
    (w : World σ T C Ctx S V) (hT : w.Tracer = none) :
    getParentSpan B operationName traceId startIfNoParent w =
      ((none, some (errors.New "jaeger tracing error : Tracer is nil")),
        w.print ["jaeger tracing error : Tracer is nil"]) := by
  simp [getParentSpan, hT, errors.New]

/-- When `Extract` succeeds, `getParentSpan` starts a child of the extracted context. -/
theorem getParentSpan_found (operationName traceId : String) (startIfNoParent : Bool)
    (w : World σ T C Ctx S V) (t : T) (c : Ctx) (h1 : σ) (hT : w.Tracer = some t)
    (hE : B.Extract t [("UBER-TRACE-ID", traceId)] w.backend = (.ok c, h1)) :
    getParentSpan B operationName traceId startIfNoParent w =
      ((some (B.StartSpan t operationName [.ChildOf c] h1).1, none),
        (w.call (.Extract t [("UBER-TRACE-ID", traceId)]) h1).call
          (.StartSpan t operationName [.ChildOf c])
          (B.StartSpan t operationName [.ChildOf c] h1).2) := by
  simp [getParentSpan, hT, inboundKey, hE]

/-- When `Extract` fails, `getParentSpan` starts a root span if asked to, and nothing otherwise. -/
theorem getParentSpan_absent (operationName traceId : String) (startIfNoParent : Bool)
    (w : World σ T C Ctx S V) (t : T) (e : GoError) (h1 : σ) (hT : w.Tracer = some t)
    (hE : B.Extract t [("UBER-TRACE-ID", traceId)] w.backend = (.error e, h1)) :
    getParentSpan B operationName traceId startIfNoParent w =
      if startIfNoParent then
        ((some (B.StartSpan t operationName [] h1).1, none),
          (w.call (.Extract t [("UBER-TRACE-ID", traceId)]) h1).call
            (.StartSpan t operationName []) (B.StartSpan t operationName [] h1).2)
      else
        ((none, none), w.call (.Extract t [("UBER-TRACE-ID", traceId)]) h1) := by
  simp [getParentSpan, hT, inboundKey, hE]

/-- The global `Tracer` is never written by `getParentSpan`. -/
theorem getParentSpan_Tracer (operationName traceId : String) (startIfNoParent : Bool)
    (w : World σ T C Ctx S V) :
    (getParentSpan B operationName traceId startIfNoParent w).2.Tracer = w.Tracer := by
  cases hT : w.Tracer with
  | none => rw [getParentSpan_nil B _ _ _ w hT]; simp [hT]
  | some t =>
    rcases hE : B.Extract t [("UBER-TRACE-ID", traceId)] w.backend with ⟨_ | c, h1⟩
    · rw [getParentSpan_absent B _ _ _ w t _ h1 hT hE]
      cases startIfNoParent <;> simp [hT]
    · rw [getParentSpan_found B _ _ _ w t c h1 hT hE]
      simp [hT]

/-- What `StartSpan` does once `getParentSpan` has produced a span `s`: one `Inject` of the
context of `s` into an empty carrier, whose outcome decides the three results. -/
theorem StartSpan_of_span (operationName parentSpanTraceId : String) (startIfNoParent : Bool)
    (w w1 : World σ T C Ctx S V) (t : T) (s : S) (hT : w.Tracer = some t)
    (hP : getParentSpan B operationName parentSpanTraceId startIfNoParent w = ((some s, none), w1)) :
    StartSpan B operationName parentSpanTraceId startIfNoParent w =
      match B.Inject t (B.Context s) [] w1.backend with
      | ((_, some err), h) =>
        .ok (⟨none, "", some err⟩,
          (w1.call (.Inject t (B.Context s) []) h).print ["jaeger tracing inject error : ", err.text])
      | ((filled, none), h) =>
        .ok (⟨some s, filled.get "uber-trace-id", none⟩, w1.call (.Inject t (B.Context s) []) h) := by
  have hT1 : w1.Tracer = some t := by
    have := getParentSpan_Tracer B operationName parentSpanTraceId startIfNoParent w
    rw [hP] at this
    simpa [hT] using this
  simp only [StartSpan, hP, hT1, outboundKey]

/-- While one of the globals is nil, `InitTracer` calls the constructor, exactly once. -/
theorem InitTracer_constructs (serviceName agentHostPort : String) (w : World σ T C Ctx S V)
    (hU : w.Tracer = none ∨ w.Closer = none) :
    (InitTracer B serviceName agentHostPort w).2.calls =
      w.calls ++ [.NewTracer (cfg serviceName agentHostPort)] := by
  have hg : (w.Tracer.isSome && w.Closer.isSome) = false := by
    rcases hU with h | h <;> simp [h]
  unfold InitTracer
  rw [if_neg (by simp [hg])]
  rcases B.NewTracer (cfg serviceName agentHostPort) w.backend with ⟨_ | ⟨t, c⟩, h1⟩ <;> simp

/-- Once both globals are set, `InitTracer` returns nil at once and touches nothing. -/
theorem InitTracer_initialized (serviceName agentHostPort : String) (w : World σ T C Ctx S V)
    (t : T) (c : C) (hT : w.Tracer = some t) (hC : w.Closer = some c) :
    InitTracer B serviceName agentHostPort w = (none, w) := by
  simp [InitTracer, hT, hC]

/-- A `StartSpan` call that returned a span without error injected that span's context with
success, returned what the injection left under `uber-trace-id`, and kept the global `Tracer`. -/
theorem StartSpan_returned_span (operationName parentSpanTraceId : String) (startIfNoParent : Bool)
    (w w1 : World σ T C Ctx S V) (t : T) (s : S) (spanTraceId : String) (hT : w.Tracer = some t)
    (hR : StartSpan B operationName parentSpanTraceId startIfNoParent w =
      .ok (⟨some s, spanTraceId, none⟩, w1)) :
    w1.Tracer = some t ∧
    ∃ (h0 : σ) (filled : TextMapCarrier) (h2 : σ),
      B.Inject t (B.Context s) [] h0 = ((filled, none), h2) ∧
      spanTraceId = filled.get "uber-trace-id" := by
  rcases hP : getParentSpan B operationName parentSpanTraceId startIfNoParent w
    with ⟨⟨_ | s0, _ | e0⟩, wp⟩
  · simp [StartSpan, hP] at hR
  · simp [StartSpan, hP] at hR
  · have hTp : wp.Tracer = some t := by
      have := getParentSpan_Tracer B operationName parentSpanTraceId startIfNoParent w
      rw [hP] at this
      simpa [hT] using this
    rw [StartSpan_of_span B _ _ _ w wp t s0 hT hP] at hR
    rcases hI : B.Inject t (B.Context s0) [] wp.backend with ⟨⟨filled, _ | e⟩, h2⟩
    · simp only [hI, Except.ok.injEq, Prod.mk.injEq, StartSpanResult.mk.injEq,
        Option.some.injEq] at hR
      obtain ⟨⟨hs, hid, -⟩, hw⟩ := hR
      subst hs
      refine ⟨?_, wp.backend, filled, h2, hI, hid.symm⟩
      rw [← hw]
      simpa using hTp
    · simp [hI] at hR
  · simp [StartSpan, hP] at hR

end Facts

/-- The inbound identifier is stored under `UBER-TRACE-ID` and under no other key. -/
theorem storesInboundUnder_iff (key : String) :
    StoresInboundUnder key ↔ key = "UBER-TRACE-ID" := by
  constructor
  · intro hk
    obtain ⟨rest, h⟩ := hk Nat Unit Unit Nat Nat String jaegerLike "pay" "" false wInit () rfl
    have hrun : (getParentSpan jaegerLike "pay" "" false wInit).2.calls =
        [.Extract () [("UBER-TRACE-ID", "")]] := rfl
    rw [hrun] at h
    simp only [wInit, List.nil_append, List.cons.injEq, Call.Extract.injEq, Prod.mk.injEq,
      true_and, and_true] at h
    exact h.1.symm
  · rintro rfl
    intro σ T C Ctx S V B operationName traceId startIfNoParent w t hT
    rcases hE : B.Extract t [("UBER-TRACE-ID", traceId)] w.backend with ⟨e | c, h1⟩
    · rw [getParentSpan_absent B _ _ _ w t e h1 hT hE]
      cases startIfNoParent
      · exact ⟨[], by simp⟩
      · exact ⟨[.StartSpan t operationName []], by simp⟩
    · rw [getParentSpan_found B _ _ _ w t c h1 hT hE]
      exact ⟨[.StartSpan t operationName [.ChildOf c]], by simp⟩

/-- The outbound identifier is read from `uber-trace-id` and from no other key. -/
theorem readsOutboundFrom_iff (key : String) :
    ReadsOutboundFrom key ↔ key = "uber-trace-id" := by
  constructor
  · intro hk
    obtain ⟨w2, h⟩ := hk Nat Unit Unit Nat Nat String jaegerLike "pay" "" true wInit
      ⟨some (), some (), 1, [.Extract () [("UBER-TRACE-ID", "")], .StartSpan () "pay" []], []⟩
      () 0 [("uber-trace-id", "1")] 1 rfl rfl rfl
    have hrun : StartSpan jaegerLike "pay" "" true wInit =
        .ok (⟨some 0, "1", none⟩,
          ⟨some (), some (), 1,
            [.Extract () [("UBER-TRACE-ID", "")], .StartSpan () "pay" [], .Inject () 0 []], []⟩) :=
      rfl
    rw [hrun] at h
    simp only [Except.ok.injEq, Prod.mk.injEq, StartSpanResult.mk.injEq, true_and] at h
    have hget := h.1.1
    by_contra hne
    have hb : (key == "uber-trace-id") = false := by simpa using hne
    simp [TextMapCarrier.get, List.lookup, hb] at hget
  · rintro rfl
    intro σ T C Ctx S V B operationName parentSpanTraceId startIfNoParent w w1 t s filled h hT hP hI
    rw [StartSpan_of_span B _ _ _ w _ t _ hT hP]
    simp only [hI]
    exact ⟨_, rfl⟩

/-! ## StartSpan before initialization -/

/-- C1: for every operation name, inbound identifier and `startIfNoParent`, when the global
`Tracer` is nil, `StartSpan` returns the non-nil error made by `getParentSpan`, a nil span and
the empty identifier; it makes no library call at all (so no `Extract`, `StartSpan` or `Inject`),
and leaves `Tracer`, `Closer` and the library state as they were. -/
theorem StartSpan_tracer_nil (B : Backend σ T C Ctx S V) (operationName parentSpanTraceId : String)
    (startIfNoParent : Bool) (w : World σ T C Ctx S V) (hT : w.Tracer = none) :
    ∃ w1, StartSpan B operationName parentSpanTraceId startIfNoParent w =
        .ok (⟨none, "", some (errors.New "jaeger tracing error : Tracer is nil")⟩, w1) ∧
      w1.Tracer = w.Tracer ∧ w1.Closer = w.Closer ∧ w1.calls = w.calls ∧
      w1.backend = w.backend := by
  refine ⟨(w.print ["jaeger tracing error : Tracer is nil"]).print ["No span return"], ?_, ?_⟩
  · simp [StartSpan, getParentSpan_nil B _ _ _ w hT]
  · simp

/-- C1 at a concrete input: the uninitialized state `w0`, asked for a root span. -/
theorem StartSpan_tracer_nil_witness :
    w0.Tracer = none ∧
    ∃ w1, StartSpan jaegerLike "pay" "1" true w0 =
        .ok (⟨none, "", some (errors.New "jaeger tracing error : Tracer is nil")⟩, w1) ∧
      w1.Tracer = w0.Tracer ∧ w1.Closer = w0.Closer ∧ w1.calls = w0.calls ∧
      w1.backend = w0.backend :=
  ⟨rfl, StartSpan_tracer_nil jaegerLike "pay" "1" true w0 rfl⟩

/-! ## StartSpan with a parent -/

/-- C4: for every operation name, inbound identifier and `startIfNoParent`, with a non-nil
`Tracer`, when `Extract` on the carrier built from the inbound identifier succeeds with context
`c`, `StartSpan` returns, and the library calls it makes are exactly `Extract`, one `StartSpan`
with the operation name and the single option `ChildOf(c)`, and one `Inject` of that span:
one span is created, never a root span; when the injection reports no error the span returned
is that span and the error is nil. -/
theorem StartSpan_child (B : Backend σ T C Ctx S V) (operationName parentSpanTraceId : String)
    (startIfNoParent : Bool) (w : World σ T C Ctx S V) (t : T) (c : Ctx) (h1 : σ)
    (hT : w.Tracer = some t)
    (hE : B.Extract t [("UBER-TRACE-ID", parentSpanTraceId)] w.backend = (.ok c, h1)) :
    ∃ r w2, StartSpan B operationName parentSpanTraceId startIfNoParent w = .ok (r, w2) ∧
      w2.calls = w.calls ++
        [.Extract t [("UBER-TRACE-ID", parentSpanTraceId)],
         .StartSpan t operationName [.ChildOf c],
         .Inject t (B.Context (B.StartSpan t operationName [.ChildOf c] h1).1) []] ∧
      ((B.Inject t (B.Context (B.StartSpan t operationName [.ChildOf c] h1).1) []
          (B.StartSpan t operationName [.ChildOf c] h1).2).1.2 = none →
        r.span = some (B.StartSpan t operationName [.ChildOf c] h1).1 ∧ r.err = none) := by
  have hP := getParentSpan_found B operationName parentSpanTraceId startIfNoParent w t c h1 hT hE
  rw [StartSpan_of_span B _ _ _ w _ t _ hT hP]
  simp only [World.call_backend]
  rcases hI : B.Inject t (B.Context (B.StartSpan t operationName [.ChildOf c] h1).1) []
      (B.StartSpan t operationName [.ChildOf c] h1).2 with ⟨⟨filled, _ | e⟩, h3⟩
  · exact ⟨_, _, rfl, by simp, fun _ => ⟨rfl, rfl⟩⟩
  · exact ⟨_, _, rfl, by simp, fun hn => by simp at hn⟩

/-- C4 at a concrete input: the jaeger-like library, inbound identifier `"11"` (context 1). -/
theorem StartSpan_child_witness :
    wInit.Tracer = some () ∧
    jaegerLike.Extract () [("UBER-TRACE-ID", "11")] wInit.backend = (.ok 1, 0) ∧
    ∃ r w2, StartSpan jaegerLike "pay" "11" false wInit = .ok (r, w2) ∧
      w2.calls = wInit.calls ++
        [.Extract () [("UBER-TRACE-ID", "11")],
         .StartSpan () "pay" [.ChildOf 1],
         .Inject () (jaegerLike.Context (jaegerLike.StartSpan () "pay" [.ChildOf 1] 0).1) []] ∧
      ((jaegerLike.Inject () (jaegerLike.Context (jaegerLike.StartSpan () "pay" [.ChildOf 1] 0).1) []
          (jaegerLike.StartSpan () "pay" [.ChildOf 1] 0).2).1.2 = none →
        r.span = some (jaegerLike.StartSpan () "pay" [.ChildOf 1] 0).1 ∧ r.err = none) :=
  ⟨rfl, rfl, StartSpan_child jaegerLike "pay" "11" false wInit () 1 0 rfl rfl⟩

/-! ## StartSpan without a parent -/

/-- C5: for every operation name and inbound identifier (the empty string included) on which
`Extract` fails, with a non-nil `Tracer`, `StartSpan(op, id, false)` returns the empty result:
nil span, empty identifier, nil error.  The only library call made is the `Extract`; the
tracer is asked neither to start a span nor to inject. -/
theorem StartSpan_no_parent_no_start (B : Backend σ T C Ctx S V)
    (operationName parentSpanTraceId : String) (w : World σ T C Ctx S V) (t : T) (e : GoError)
    (h1 : σ) (hT : w.Tracer = some t)
    (hE : B.Extract t [("UBER-TRACE-ID", parentSpanTraceId)] w.backend = (.error e, h1)) :
    ∃ w1, StartSpan B operationName parentSpanTraceId false w = .ok (⟨none, "", none⟩, w1) ∧
      w1.calls = w.calls ++ [.Extract t [("UBER-TRACE-ID", parentSpanTraceId)]] ∧
      w1.Tracer = w.Tracer ∧ w1.Closer = w.Closer := by
  have hP := getParentSpan_absent B operationName parentSpanTraceId false w t e h1 hT hE
  refine ⟨(w.call (.Extract t [("UBER-TRACE-ID", parentSpanTraceId)]) h1).print ["No span return"],
    ?_, by simp, by simp, by simp⟩
  simp [StartSpan, hP]

/-- C5 at a concrete input: the jaeger-like library and the empty inbound identifier. -/
theorem StartSpan_no_parent_no_start_witness :
    wInit.Tracer = some () ∧
    jaegerLike.Extract () [("UBER-TRACE-ID", "")] wInit.backend = (.error ⟨"empty trace id"⟩, 0) ∧
    ∃ w1, StartSpan jaegerLike "pay" "" false wInit = .ok (⟨none, "", none⟩, w1) ∧
      w1.calls = wInit.calls ++ [.Extract () [("UBER-TRACE-ID", "")]] ∧
      w1.Tracer = wInit.Tracer ∧ w1.Closer = wInit.Closer :=
  ⟨rfl, rfl, StartSpan_no_parent_no_start jaegerLike "pay" "" wInit () ⟨"empty trace id"⟩ 0 rfl rfl⟩

/-- C6, as stated, fails on three tracers.  With an `Inject` that fails, `StartSpan(op, "", true)`
returns a non-nil error and a nil span; with an `Inject` that writes under another key, the
identifier returned is empty; with an `Extract` that accepts the empty identifier, the span is
started as a child, not as a root. -/
theorem StartSpan_root_counterexample :
    StartSpan injectFails "checkout" "" true wInit =
      .ok (⟨none, "", some ⟨"invalid span context"⟩⟩,
        ⟨some (), some (), 1,
          [.Extract () [("UBER-TRACE-ID", "")], .StartSpan () "checkout" [], .Inject () 0 []],
          [Println ["jaeger tracing inject error : ", "invalid span context"]]⟩) ∧
    StartSpan otherKey "checkout" "" true wInit =
      .ok (⟨some 0, "", none⟩,
        ⟨some (), some (), 1,
          [.Extract () [("UBER-TRACE-ID", "")], .StartSpan () "checkout" [], .Inject () 0 []], []⟩) ∧
    StartSpan lenient "checkout" "" true wInit =
      .ok (⟨some 0, "1", none⟩,
        ⟨some (), some (), 1,
          [.Extract () [("UBER-TRACE-ID", "")], .StartSpan () "checkout" [.ChildOf 7],
           .Inject () 0 []], []⟩) :=
  ⟨rfl, rfl, rfl⟩

/-- C6, amended: for every operation name and every non-nil `Tracer` whose `Extract` fails on
the carrier holding the empty identifier and whose `Inject` of the new span reports no error,
`StartSpan(op, "", true)` returns a nil error, the non-nil span that the tracer started from
the operation name alone (no parent reference), and as identifier the value `Inject` left
under `uber-trace-id` (the empty string when it left none). -/
theorem StartSpan_root (B : Backend σ T C Ctx S V) (operationName : String)
    (w : World σ T C Ctx S V) (t : T) (e : GoError) (h1 h3 : σ) (filled : TextMapCarrier)
    (hT : w.Tracer = some t)
    (hE : B.Extract t [("UBER-TRACE-ID", "")] w.backend = (.error e, h1))
    (hI : B.Inject t (B.Context (B.StartSpan t operationName [] h1).1) []
        (B.StartSpan t operationName [] h1).2 = ((filled, none), h3)) :
    ∃ w2, StartSpan B operationName "" true w =
        .ok (⟨some (B.StartSpan t operationName [] h1).1, filled.get "uber-trace-id", none⟩, w2) ∧
      w2.calls = w.calls ++
        [.Extract t [("UBER-TRACE-ID", "")], .StartSpan t operationName [],
         .Inject t (B.Context (B.StartSpan t operationName [] h1).1) []] := by
  have hP := getParentSpan_absent B operationName "" true w t e h1 hT hE
  rw [if_pos rfl] at hP
  rw [StartSpan_of_span B _ _ _ w _ t _ hT hP]
  simp only [World.call_backend, hI]
  exact ⟨_, rfl, by simp⟩

/-- C6, amended, at a concrete input: the jaeger-like library. -/
theorem StartSpan_root_witness :
    wInit.Tracer = some () ∧
    jaegerLike.Extract () [("UBER-TRACE-ID", "")] wInit.backend = (.error ⟨"empty trace id"⟩, 0) ∧
    jaegerLike.Inject () (jaegerLike.Context (jaegerLike.StartSpan () "checkout" [] 0).1) []
        (jaegerLike.StartSpan () "checkout" [] 0).2 = (([("uber-trace-id", "1")], none), 1) ∧
    ∃ w2, StartSpan jaegerLike "checkout" "" true wInit =
        .ok (⟨some (jaegerLike.StartSpan () "checkout" [] 0).1,
          TextMapCarrier.get [("uber-trace-id", "1")] "uber-trace-id", none⟩, w2) ∧
      w2.calls = wInit.calls ++
        [.Extract () [("UBER-TRACE-ID", "")], .StartSpan () "checkout" [],
         .Inject () (jaegerLike.Context (jaegerLike.StartSpan () "checkout" [] 0).1) []] :=
  ⟨rfl, rfl, rfl,
    StartSpan_root jaegerLike "checkout" wInit () ⟨"empty trace id"⟩ 0 1 [("uber-trace-id", "1")]
      rfl rfl rfl⟩

/-! ## Injection failure -/

/-- C2, as stated, fails: with a non-nil `Tracer` whose `Inject` fails, `StartSpan` has the
tracer start span `0`, the injection of its context fails with `invalid span context`, and the
span returned to the caller is nil, not span `0`. -/
theorem StartSpan_inject_failure_counterexample :
    injectFails.StartSpan () "pay" [] 0 = (0, 1) ∧
    injectFails.Inject () (injectFails.Context 0) [] 1 = (([], some ⟨"invalid span context"⟩), 1) ∧
    StartSpan injectFails "pay" "" true wInit =
      .ok (⟨none, "", some ⟨"invalid span context"⟩⟩,
        ⟨some (), some (), 1,
          [.Extract () [("UBER-TRACE-ID", "")], .StartSpan () "pay" [], .Inject () 0 []],
          [Println ["jaeger tracing inject error : ", "invalid span context"]]⟩) :=
  ⟨rfl, rfl, rfl⟩

/-- C2, amended: for every call of `StartSpan` with a non-nil `Tracer` in which `getParentSpan`
created a span `s` (child or root) and the tracer's `Inject` of the context of `s` fails with
cause `e`, `StartSpan` returns exactly the error `e` together with a nil span and the empty
identifier; after the span was created the only library call is that `Inject`. -/
theorem StartSpan_inject_failure (B : Backend σ T C Ctx S V)
    (operationName parentSpanTraceId : String) (startIfNoParent : Bool)
    (w w1 : World σ T C Ctx S V) (t : T) (s : S) (filled : TextMapCarrier) (e : GoError) (h : σ)
    (hT : w.Tracer = some t)
    (hP : getParentSpan B operationName parentSpanTraceId startIfNoParent w = ((some s, none), w1))
    (hI : B.Inject t (B.Context s) [] w1.backend = ((filled, some e), h)) :
    ∃ w2, StartSpan B operationName parentSpanTraceId startIfNoParent w =
        .ok (⟨none, "", some e⟩, w2) ∧
      w2.calls = w1.calls ++ [.Inject t (B.Context s) []] := by
  rw [StartSpan_of_span B _ _ _ w _ t _ hT hP]
  simp only [hI]
  exact ⟨_, rfl, by simp⟩

/-- C2, amended, at a concrete input: the library whose `Inject` fails, on the child path. -/
theorem StartSpan_inject_failure_witness :
    wInit.Tracer = some () ∧
    getParentSpan injectFails "pay" "11" false wInit =
      ((some 0, none), ⟨some (), some (), 1,
        [.Extract () [("UBER-TRACE-ID", "11")], .StartSpan () "pay" [.ChildOf 1]], []⟩) ∧
    injectFails.Inject () (injectFails.Context 0) [] 1 = (([], some ⟨"invalid span context"⟩), 1) ∧
    ∃ w2, StartSpan injectFails "pay" "11" false wInit =
        .ok (⟨none, "", some ⟨"invalid span context"⟩⟩, w2) ∧
      w2.calls = [.Extract () [("UBER-TRACE-ID", "11")], .StartSpan () "pay" [.ChildOf 1]] ++
        [.Inject () (injectFails.Context 0) []] :=
  ⟨rfl, rfl, rfl,
    StartSpan_inject_failure injectFails "pay" "11" false wInit _ () 0 [] ⟨"invalid span context"⟩ 1
      rfl rfl rfl⟩

/-! ## The carrier keys -/

/-- C7, as stated, fails: no key is both the key under which `getParentSpan` stores the inbound
identifier and the key from which `StartSpan` reads the outbound identifier.  On a library whose
`Inject` fills both spellings, `StartSpan("pay", "11", false)` hands `Extract` the carrier with
the single key `UBER-TRACE-ID` and returns the value filled under `uber-trace-id`. -/
theorem StartSpan_carrier_keys_counterexample :
    (¬ ∃ key, StoresInboundUnder key ∧ ReadsOutboundFrom key) ∧
    StartSpan twoKeys "pay" "11" false wInit =
      .ok (⟨some 0, "lower", none⟩,
        ⟨some (), some (), 1,
          [.Extract () [("UBER-TRACE-ID", "11")], .StartSpan () "pay" [.ChildOf 1],
           .Inject () 0 []], []⟩) ∧
    TextMapCarrier.get [("UBER-TRACE-ID", "upper"), ("uber-trace-id", "lower")] "UBER-TRACE-ID"
      = "upper" := by
  refine ⟨?_, rfl, rfl⟩
  rintro ⟨key, hin, hout⟩
  have h1 := (storesInboundUnder_iff key).1 hin
  have h2 := (readsOutboundFrom_iff key).1 hout
  rw [h1] at h2
  exact absurd h2 (by decide)

/-- C7, amended: one carrier key, up to letter case, carries the trace identifier.  On every
tracing library `getParentSpan` stores the inbound identifier under `UBER-TRACE-ID` and under no
other key, `StartSpan` reads the outbound identifier from `uber-trace-id` and from no other key,
and lower-casing the first key gives the second. -/
theorem StartSpan_carrier_keys :
    (∀ key, StoresInboundUnder key ↔ key = "UBER-TRACE-ID") ∧
    (∀ key, ReadsOutboundFrom key ↔ key = "uber-trace-id") ∧
    ("UBER-TRACE-ID" : String).data.map Char.toLower = ("uber-trace-id" : String).data :=
  ⟨storesInboundUnder_iff, readsOutboundFrom_iff, by decide⟩

/-! ## Round trip of the identifier through two StartSpan calls -/

/-- C3, as stated, fails.  The case-sensitive library inverts its own `Inject` on carriers, the
first call `StartSpan("browse", "", true)` returns span `0` with identifier `"1"` and no error,
yet `StartSpan("pay", "1", false)` returns a nil span: the identifier read from
`uber-trace-id` is offered under `UBER-TRACE-ID`, which this `Extract` does not look at.
And on a library that ignores key case but whose `Inject` refuses the new child span, the second
call does start a child of span `0` and then returns an error with a nil span. -/
theorem StartSpan_round_trip_counterexample :
    ExtractInvertsInject caseSensitive () ∧
    StartSpan caseSensitive "browse" "" true wInit =
      .ok (⟨some 0, "1", none⟩,
        ⟨some (), some (), 1,
          [.Extract () [("UBER-TRACE-ID", "")], .StartSpan () "browse" [], .Inject () 0 []], []⟩) ∧
    StartSpan caseSensitive "pay" "1" false
        ⟨some (), some (), 1,
          [.Extract () [("UBER-TRACE-ID", "")], .StartSpan () "browse" [], .Inject () 0 []], []⟩ =
      .ok (⟨none, "", none⟩,
        ⟨some (), some (), 1,
          [.Extract () [("UBER-TRACE-ID", "")], .StartSpan () "browse" [], .Inject () 0 [],
           .Extract () [("UBER-TRACE-ID", "1")]],
          [Println ["No span return"]]⟩) ∧
    ExtractInvertsInject injectOnce () ∧
    StartSpan injectOnce "browse" "" true wInit =
      .ok (⟨some 0, "1", none⟩,
        ⟨some (), some (), 1,
          [.Extract () [("UBER-TRACE-ID", "")], .StartSpan () "browse" [], .Inject () 0 []], []⟩) ∧
    StartSpan injectOnce "pay" "1" false
        ⟨some (), some (), 1,
          [.Extract () [("UBER-TRACE-ID", "")], .StartSpan () "browse" [], .Inject () 0 []], []⟩ =
      .ok (⟨none, "", some ⟨"invalid span context"⟩⟩,
        ⟨some (), some (), 2,
          [.Extract () [("UBER-TRACE-ID", "")], .StartSpan () "browse" [], .Inject () 0 [],
           .Extract () [("UBER-TRACE-ID", "1")], .StartSpan () "pay" [.ChildOf 0],
           .Inject () 1 []],
          [Println ["jaeger tracing inject error : ", "invalid span context"]]⟩) := by
  refine ⟨?_, rfl, rfl, ?_, rfl, rfl⟩
  · intro ctx h filled h2 hI h3
    simp only [caseSensitive, demo, if_true, Prod.mk.injEq] at hI
    obtain ⟨⟨hf, -⟩, -⟩ := hI
    subst hf
    simp [caseSensitive, demo, demoExtract, demoDecode, demoEncode]
  · intro ctx h filled h2 hI h3
    have hk : (lowerKey "uber-trace-id" == "uber-trace-id") = true := by decide
    by_cases hc : ctx = 0
    · simp only [injectOnce, if_pos hc, Prod.mk.injEq] at hI
      obtain ⟨⟨hf, -⟩, -⟩ := hI
      subst hf
      simp [injectOnce, jaegerLike, demo, demoExtract, demoDecode, demoEncode, hk]
    · simp [injectOnce, hc] at hI

/-- The jaeger-like library reads back, from under `UBER-TRACE-ID`, what it injected. -/
theorem jaegerLike_round_trip : ExtractInvertsInjectAcrossKeys jaegerLike () := by
  intro ctx h filled h2 hI h3
  simp only [jaegerLike, demo, if_true, Prod.mk.injEq] at hI
  obtain ⟨⟨hf, -⟩, -⟩ := hI
  subst hf
  have hk : (lowerKey "UBER-TRACE-ID" == "uber-trace-id") = true := by decide
  simp [jaegerLike, demo, demoExtract, demoDecode, demoEncode, TextMapCarrier.get, hk]

/-- C3, amended: for every non-nil `Tracer` whose `Extract` reads back, from a carrier holding
under `UBER-TRACE-ID` the value its `Inject` left under `uber-trace-id`, the injected context,
and every span `s1` with identifier `id1` returned without error by an earlier
`StartSpan(op1, p, true)`: the call `StartSpan(op2, id1, false)` returns, and the library calls
it makes are `Extract`, one `StartSpan` with `op2` and the single option `ChildOf` of exactly
the context of `s1`, and the `Inject` of the new span; when that injection reports no error,
the call returns the new span and a nil error. -/
theorem StartSpan_round_trip (B : Backend σ T C Ctx S V) (op1 p op2 id1 : String)
    (w w1 : World σ T C Ctx S V) (t : T) (s1 : S) (hT : w.Tracer = some t)
    (hRT : ExtractInvertsInjectAcrossKeys B t)
    (hFirst : StartSpan B op1 p true w = .ok (⟨some s1, id1, none⟩, w1)) :
    ∃ r w2, StartSpan B op2 id1 false w1 = .ok (r, w2) ∧
      w2.calls = w1.calls ++
        [.Extract t [("UBER-TRACE-ID", id1)],
         .StartSpan t op2 [.ChildOf (B.Context s1)],
         .Inject t (B.Context (B.StartSpan t op2 [.ChildOf (B.Context s1)]
            (B.Extract t [("UBER-TRACE-ID", id1)] w1.backend).2).1) []] ∧
      ((B.Inject t (B.Context (B.StartSpan t op2 [.ChildOf (B.Context s1)]
            (B.Extract t [("UBER-TRACE-ID", id1)] w1.backend).2).1) []
          (B.StartSpan t op2 [.ChildOf (B.Context s1)]
            (B.Extract t [("UBER-TRACE-ID", id1)] w1.backend).2).2).1.2 = none →
        r.span = some (B.StartSpan t op2 [.ChildOf (B.Context s1)]
            (B.Extract t [("UBER-TRACE-ID", id1)] w1.backend).2).1 ∧ r.err = none) := by
  obtain ⟨hT1, h0, filled, h2, hI, hid⟩ := StartSpan_returned_span B op1 p true w w1 t s1 id1 hT hFirst
  have hE1 := hRT (B.Context s1) h0 filled h2 hI w1.backend
  rw [← hid] at hE1
  have hE : B.Extract t [("UBER-TRACE-ID", id1)] w1.backend =
      (.ok (B.Context s1), (B.Extract t [("UBER-TRACE-ID", id1)] w1.backend).2) :=
    Prod.ext hE1 rfl
  have hP := getParentSpan_found B op2 id1 false w1 t (B.Context s1) _ hT1 hE
  rw [StartSpan_of_span B _ _ _ w1 _ t _ hT1 hP]
  simp only [World.call_backend]
  rcases hI2 : B.Inject t (B.Context (B.StartSpan t op2 [.ChildOf (B.Context s1)]
      (B.Extract t [("UBER-TRACE-ID", id1)] w1.backend).2).1) []
      (B.StartSpan t op2 [.ChildOf (B.Context s1)]
        (B.Extract t [("UBER-TRACE-ID", id1)] w1.backend).2).2 with ⟨⟨filled2, _ | e2⟩, h4⟩
  · exact ⟨_, _, rfl, by simp, fun _ => ⟨rfl, rfl⟩⟩
  · exact ⟨_, _, rfl, by simp, fun hn => by simp at hn⟩

/-- C3, amended, at a concrete input: a root span and then its child, on the jaeger-like library. -/
theorem StartSpan_round_trip_witness :
    wInit.Tracer = some () ∧
    ExtractInvertsInjectAcrossKeys jaegerLike () ∧
    StartSpan jaegerLike "browse" "" true wInit =
      .ok (⟨some 0, "1", none⟩,
        ⟨some (), some (), 1,
          [.Extract () [("UBER-TRACE-ID", "")], .StartSpan () "browse" [], .Inject () 0 []], []⟩) ∧
    ∃ r w2, StartSpan jaegerLike "pay" "1" false
        ⟨some (), some (), 1,
          [.Extract () [("UBER-TRACE-ID", "")], .StartSpan () "browse" [], .Inject () 0 []], []⟩
          = .ok (r, w2) ∧
      w2.calls =
        [.Extract () [("UBER-TRACE-ID", "")], .StartSpan () "browse" [], .Inject () 0 []] ++
        [.Extract () [("UBER-TRACE-ID", "1")],
         .StartSpan () "pay" [.ChildOf (jaegerLike.Context 0)],
         .Inject () (jaegerLike.Context (jaegerLike.StartSpan () "pay" [.ChildOf (jaegerLike.Context 0)]
            (jaegerLike.Extract () [("UBER-TRACE-ID", "1")] 1).2).1) []] ∧
      ((jaegerLike.Inject () (jaegerLike.Context (jaegerLike.StartSpan () "pay"
            [.ChildOf (jaegerLike.Context 0)]
            (jaegerLike.Extract () [("UBER-TRACE-ID", "1")] 1).2).1) []
          (jaegerLike.StartSpan () "pay" [.ChildOf (jaegerLike.Context 0)]
            (jaegerLike.Extract () [("UBER-TRACE-ID", "1")] 1).2).2).1.2 = none →
        r.span = some (jaegerLike.StartSpan () "pay" [.ChildOf (jaegerLike.Context 0)]
            (jaegerLike.Extract () [("UBER-TRACE-ID", "1")] 1).2).1 ∧ r.err = none) :=
  ⟨rfl, jaegerLike_round_trip, rfl,
    StartSpan_round_trip jaegerLike "browse" "" "pay" "1" wInit _ () 0 rfl jaegerLike_round_trip rfl⟩

/-! ## InitTracer -/

/-- C8: `InitTracer` is idempotent.  Starting from a state in which the globals are not both set,
if `InitTracer(n1, a1)` returns nil then a following `InitTracer(n2, a2)` returns nil as well and
leaves the whole state as the first call left it: the globals hold the tracer and closer the
first call published, and over the two calls the constructor was invoked exactly once (with the
configuration of the first call). -/
theorem InitTracer_idempotent (B : Backend σ T C Ctx S V) (n1 a1 n2 a2 : String)
    (w : World σ T C Ctx S V) (hU : w.Tracer = none ∨ w.Closer = none)
    (hOk : (InitTracer B n1 a1 w).1 = none) :
    InitTracer B n2 a2 (InitTracer B n1 a1 w).2 = (none, (InitTracer B n1 a1 w).2) ∧
    (∃ t c, (InitTracer B n1 a1 w).2.Tracer = some t ∧ (InitTracer B n1 a1 w).2.Closer = some c ∧
      (InitTracer B n2 a2 (InitTracer B n1 a1 w).2).2.Tracer = some t ∧
      (InitTracer B n2 a2 (InitTracer B n1 a1 w).2).2.Closer = some c) ∧
    (InitTracer B n2 a2 (InitTracer B n1 a1 w).2).2.calls = w.calls ++ [.NewTracer (cfg n1 a1)] := by
  have hcalls := InitTracer_constructs B n1 a1 w hU
  have hg : (w.Tracer.isSome && w.Closer.isSome) = false := by
    rcases hU with h | h <;> simp [h]
  have hpub : ∃ t c, (InitTracer B n1 a1 w).2.Tracer = some t ∧
      (InitTracer B n1 a1 w).2.Closer = some c := by
    revert hOk
    unfold InitTracer
    rw [if_neg (by simp [hg])]
    rcases B.NewTracer (cfg n1 a1) w.backend with ⟨_ | ⟨t, c⟩, h1⟩
    · simp
    · intro _; exact ⟨t, c, rfl, rfl⟩
  obtain ⟨t, c, hT, hC⟩ := hpub
  have h2 := InitTracer_initialized B n2 a2 (InitTracer B n1 a1 w).2 t c hT hC
  refine ⟨h2, ⟨t, c, hT, hC, ?_, ?_⟩, ?_⟩
  · rw [h2]; exact hT
  · rw [h2]; exact hC
  · rw [h2]; exact hcalls

/-- C8 at a concrete input: two initializations with different parameters from `w0`. -/
theorem InitTracer_idempotent_witness :
    (w0.Tracer = none ∨ w0.Closer = none) ∧
    (InitTracer jaegerLike "cart" "localhost:6831" w0).1 = none ∧
    InitTracer jaegerLike "payment" "10.0.0.7:6831" (InitTracer jaegerLike "cart" "localhost:6831" w0).2
      = (none, (InitTracer jaegerLike "cart" "localhost:6831" w0).2) :=
  ⟨Or.inl rfl, by decide,
    (InitTracer_idempotent jaegerLike "cart" "localhost:6831" "payment" "10.0.0.7:6831" w0
      (Or.inl rfl) (by decide)).1⟩

/-- C9: for every service name and agent address, when the globals are not both set and the
tracer construction fails with cause `e`, `InitTracer` returns exactly `e` and leaves `Tracer`
and `Closer` as they were; a later `InitTracer` call therefore does not return early but invokes
the constructor again, with its own parameters. -/
theorem InitTracer_failure (B : Backend σ T C Ctx S V) (serviceName agentHostPort : String)
    (w : World σ T C Ctx S V) (e : GoError) (h1 : σ) (hU : w.Tracer = none ∨ w.Closer = none)
    (hN : B.NewTracer (cfg serviceName agentHostPort) w.backend = (.error e, h1)) :
    ∃ w1, InitTracer B serviceName agentHostPort w = (some e, w1) ∧
      w1.Tracer = w.Tracer ∧ w1.Closer = w.Closer ∧
      ∀ n2 a2 : String, (InitTracer B n2 a2 w1).2.calls = w1.calls ++ [.NewTracer (cfg n2 a2)] := by
  have hg : (w.Tracer.isSome && w.Closer.isSome) = false := by
    rcases hU with h | h <;> simp [h]
  refine ⟨(w.call (.NewTracer (cfg serviceName agentHostPort)) h1).print
      ["Init GlobalJaegerTracer failed, err : ", e.text], ?_, by simp, by simp, ?_⟩
  · unfold InitTracer
    rw [if_neg (by simp [hg]), hN]
  · intro n2 a2
    apply InitTracer_constructs
    simpa using hU

/-- C9 at a concrete input: the demo library refuses an empty agent address. -/
theorem InitTracer_failure_witness :
    (w0.Tracer = none ∨ w0.Closer = none) ∧
    jaegerLike.NewTracer (cfg "cart" "") w0.backend = (.error ⟨"no agent address"⟩, 0) ∧
    ∃ w1, InitTracer jaegerLike "cart" "" w0 = (some ⟨"no agent address"⟩, w1) ∧
      w1.Tracer = w0.Tracer ∧ w1.Closer = w0.Closer ∧
      ∀ n2 a2 : String, (InitTracer jaegerLike n2 a2 w1).2.calls = w1.calls ++ [.NewTracer (cfg n2 a2)] :=
  ⟨Or.inl rfl, rfl, InitTracer_failure jaegerLike "cart" "" w0 ⟨"no agent address"⟩ 0 (Or.inl rfl) rfl⟩

/-! ## FinishSpan and SpanSetTag -/

/-- C10: for every tag name and tag value, `FinishSpan` and `SpanSetTag` on a nil span return
with the state exactly as it was: no method of any span is called, nothing is changed. -/
theorem nil_span_noop (B : Backend σ T C Ctx S V) (span : Option S) (tagname : String)
    (tagvalue : V) (w : World σ T C Ctx S V) (hS : span = none) :
    FinishSpan B span w = w ∧ SpanSetTag B span tagname tagvalue w = w := by
  subst hS
  exact ⟨rfl, rfl⟩

/-- C10 at a concrete input: the nil span of the empty-result path of `StartSpan`. -/
theorem nil_span_noop_witness :
    (StartSpan.returned (StartSpan jaegerLike "pay" "" false wInit) wInit).1.span = none ∧
    FinishSpan jaegerLike (StartSpan.returned (StartSpan jaegerLike "pay" "" false wInit) wInit).1.span
        (StartSpan.returned (StartSpan jaegerLike "pay" "" false wInit) wInit).2
      = (StartSpan.returned (StartSpan jaegerLike "pay" "" false wInit) wInit).2 ∧
    SpanSetTag jaegerLike (StartSpan.returned (StartSpan jaegerLike "pay" "" false wInit) wInit).1.span
        "http.status" "200" (StartSpan.returned (StartSpan jaegerLike "pay" "" false wInit) wInit).2
      = (StartSpan.returned (StartSpan jaegerLike "pay" "" false wInit) wInit).2 :=
  ⟨rfl, nil_span_noop jaegerLike _ "http.status" "200" _ rfl⟩

end tracer
